import Mathlib

/-!
Shallow embedding of the position-exit decision engine of
`src/app/trade_manager.py` (`TradeManager.manage_exit`, lines 23-127)
together with the attribute surface of `RulesConfig`
(`src/app/config.py`, lines 73-115), which `manage_exit` consults for its
rule table via `self.rules.exit` (line 49).

Python floats are modelled as exact rationals (`ℚ`), Python ints as `ℤ`,
and `datetime` values as rational timestamps counted in seconds from an
arbitrary epoch: `manage_exit` only ever subtracts two timestamps and
divides the difference by 60 to obtain minutes, so this is faithful.
Division by zero (Python raises `ZeroDivisionError` when
`position.entry_price == 0`) is the one spot where `ℚ` and Python differ;
theorems about the percentage logic therefore carry the data-model
hypothesis `0 < entry_price` where it matters.
-/

/-- Python `int(x)` applied to a float: truncation toward zero. -/
def pyInt (q : ℚ) : ℤ :=
  if 0 ≤ q then ⌊q⌋ else -⌊-q⌋

/-- Modelled from the spec: the `Position` data entity of `app/schemas.py`
(that module is not among the repository's files; spec section 3 lists its
fields).  `current_price` functions as the running peak tracker; it is
`Option`al because `trade_manager.py` line 52 guards it with Python `or`,
whose fallback to `entry_price` also fires on a stored `0.0` (falsy). -/
structure Position where
  ticker : String
  entry_price : ℚ
  quantity : ℤ
  entry_time : ℚ
  event_id : String
  order_id : String
  stop_loss : ℚ
  take_profit : ℚ
  current_price : Option ℚ
  partial_sold : Bool
  deriving DecidableEq

/-- The `exit` section of the rules YAML as `manage_exit` reads it: every
threshold is fetched with `dict.get(key, default)`, so each key may be
absent. -/
structure ExitRulesTable where
  hard_stop_pct : Option ℚ
  take_profit_lvl1_pct : Option ℚ
  take_profit_lvl1_part : Option ℚ
  trailing_stop_pct : Option ℚ
  hold_minutes : Option ℚ
  deriving DecidableEq

/-- Line 63: `exit_rules.get("hard_stop_pct", 4.0)`. -/
def ExitRulesTable.hardStopPct (r : ExitRulesTable) : ℚ :=
  r.hard_stop_pct.getD 4

/-- Line 76: `exit_rules.get("take_profit_lvl1_pct", 8.0)`. -/
def ExitRulesTable.lvl1Pct (r : ExitRulesTable) : ℚ :=
  r.take_profit_lvl1_pct.getD 8

/-- Line 77: `exit_rules.get("take_profit_lvl1_part", 0.4)`. -/
def ExitRulesTable.lvl1Part (r : ExitRulesTable) : ℚ :=
  r.take_profit_lvl1_part.getD (2 / 5)

/-- Line 94: `exit_rules.get("trailing_stop_pct", 5.0)`. -/
def ExitRulesTable.trailPct (r : ExitRulesTable) : ℚ :=
  r.trailing_stop_pct.getD 5

/-- Line 109: `exit_rules.get("hold_minutes", 60)`. -/
def ExitRulesTable.holdMinutes (r : ExitRulesTable) : ℚ :=
  r.hold_minutes.getD 60

/-- The `action` strings the returned dict can carry. -/
inductive ExitAction where
  | hold
  | partialSell
  | fullSell
  deriving DecidableEq

/-- The `reason` values of the returned dict.  The HOLD branch (line 123)
builds an informational f-string from the current P&L percentage and the
elapsed minutes; `inPosition` carries those two numbers. -/
inductive ExitReason where
  | hardStop
  | lvl1Profit
  | trailingStop
  | timeLimit
  | inPosition (pnl : ℚ) (held : ℚ)
  deriving DecidableEq

/-- Round half to even: how Python resolves a decimal tie when formatting. -/
def roundHalfEven (q : ℚ) : ℤ :=
  if q - ⌊q⌋ < 1 / 2 then ⌊q⌋
  else if q - ⌊q⌋ > 1 / 2 then ⌊q⌋ + 1
  else if ⌊q⌋ % 2 = 0 then ⌊q⌋ else ⌊q⌋ + 1

/-- Python fixed-point formatting with one decimal place, on the exact
rational value. -/
def fmtFix1 (q : ℚ) : String :=
  (if q < 0 then "-" else "") ++
    toString ((roundHalfEven (q * 10)).natAbs / 10) ++ "." ++
    toString ((roundHalfEven (q * 10)).natAbs % 10)

/-- Python fixed-point formatting with no decimal place, on the exact
rational value. -/
def fmtFix0 (q : ℚ) : String :=
  (if q < 0 then "-" else "") ++ toString (roundHalfEven q).natAbs

/-- The `action` string of the returned dict. -/
def ExitAction.text : ExitAction → String
  | .hold => "HOLD"
  | .partialSell => "PARTIAL_SELL"
  | .fullSell => "FULL_SELL"

/-- The `reason` string of the returned dict; the HOLD branch (line 123)
returns the f-string "In position: +" pnl "%, " minutes "m" with the two
numbers formatted to one and zero decimal places. -/
def ExitReason.text : ExitReason → String
  | .hardStop => "HARD_STOP"
  | .lvl1Profit => "LVL1_PROFIT"
  | .trailingStop => "TRAILING_STOP"
  | .timeLimit => "TIME_LIMIT"
  | .inPosition p h => "In position: +" ++ fmtFix1 p ++ "%, " ++ fmtFix0 h ++ "m"

/-- The dict `manage_exit` returns (keys `action`, `reason`, `sell_qty`,
`sell_price`, `new_peak`). -/
structure ExitDecision where
  action : ExitAction
  reason : ExitReason
  sell_qty : ℤ
  sell_price : ℚ
  new_peak : ℚ
  deriving DecidableEq

/-- Line 52: `current_peak = position.current_price or position.entry_price`
(Python `or` falls back when the left side is `None` or `0.0`). -/
def current_peak (position : Position) : ℚ :=
  match position.current_price with
  | none => position.entry_price
  | some c => if c = 0 then position.entry_price else c

/-- Line 53: `new_peak = max(current_peak, market_price)`. -/
def new_peak (position : Position) (market_price : ℚ) : ℚ :=
  max (current_peak position) market_price

/-- Line 57: `pnl_pct = ((market_price - entry_price) / entry_price) * 100`. -/
def pnl_pct (position : Position) (market_price : ℚ) : ℚ :=
  (market_price - position.entry_price) / position.entry_price * 100

/-- Line 58: `hold_time = (now - position.entry_time).total_seconds() / 60`,
the elapsed holding time in minutes. -/
def hold_time (position : Position) (now : ℚ) : ℚ :=
  (now - position.entry_time) / 60

/-- Rules 3-5 of `manage_exit` (lines 93-127): trailing stop, time exit and
the HOLD fallback, reached when neither the hard stop nor the level-1
partial-profit branch returned. -/
def manage_exit_tail (exit_rules : ExitRulesTable) (position : Position)
    (market_price now : ℚ) : ExitDecision :=
  if new_peak position market_price > position.entry_price ∧
      market_price ≤ new_peak position market_price * (1 - exit_rules.trailPct / 100) then
    { action := .fullSell, reason := .trailingStop, sell_qty := |position.quantity|,
      sell_price := market_price, new_peak := new_peak position market_price }
  else if hold_time position now ≥ exit_rules.holdMinutes then
    { action := .fullSell, reason := .timeLimit, sell_qty := |position.quantity|,
      sell_price := market_price, new_peak := new_peak position market_price }
  else
    { action := .hold,
      reason := .inPosition (pnl_pct position market_price) (hold_time position now),
      sell_qty := 0, sell_price := 0, new_peak := new_peak position market_price }

/-- The body of `TradeManager.manage_exit` from line 51 on, given the
resolved `exit` rule table: strict priority order — hard stop (line 64),
level-1 partial profit (lines 79-91, with the inner `partial_qty > 0` guard
folded into the branch condition; a failed guard falls through exactly as
the Python early-return structure does), then `manage_exit_tail`.  Python
`abs(...)` is `|·|` and `int(...)` is `pyInt`. -/
def manage_exit (exit_rules : ExitRulesTable) (position : Position)
    (market_price now : ℚ) : ExitDecision :=
  if pnl_pct position market_price ≤ -exit_rules.hardStopPct then
    { action := .fullSell, reason := .hardStop, sell_qty := |position.quantity|,
      sell_price := market_price, new_peak := new_peak position market_price }
  else if pnl_pct position market_price ≥ exit_rules.lvl1Pct ∧
      position.quantity > 0 ∧ position.partial_sold = false ∧
      pyInt ((position.quantity : ℚ) * exit_rules.lvl1Part) > 0 then
    { action := .partialSell, reason := .lvl1Profit,
      sell_qty := pyInt ((position.quantity : ℚ) * exit_rules.lvl1Part),
      sell_price := market_price, new_peak := new_peak position market_price }
  else
    manage_exit_tail exit_rules position market_price now

/-- The attribute names a `RulesConfig` instance exposes (config.py lines
73-115): the two instance attributes assigned in `__init__`, the five
section properties, and the two methods. -/
def rulesConfigAttrs : List String :=
  ["config_path", "_rules", "_load_rules", "entry", "skip", "risk",
   "execution", "monitoring", "reload"]

/-- `TradeManager.manage_exit` as it actually runs: line 49 evaluates
`self.rules.exit` on the `RulesConfig` built by `get_rules()`.  Python
attribute lookup succeeds only for a defined attribute; a miss raises
`AttributeError` before any decision logic executes.  `sections` stands for
the parsed YAML dict held in `_rules`; were an `exit` property defined like
its five siblings, it would return an empty table when the key is absent
(as `entry` and the rest each default to an empty dict). -/
def manage_exit_run (sections : String → Option ExitRulesTable)
    (position : Position) (market_price now : ℚ) : Except String ExitDecision :=
  if "exit" ∈ rulesConfigAttrs then
    Except.ok (manage_exit ((sections "exit").getD ⟨none, none, none, none, none⟩)
      position market_price now)
  else
    Except.error "AttributeError: RulesConfig object has no attribute exit"

/-- `manage_exit` with the heap cell holding the `Position` threaded
explicitly: the body (lines 46-127) reads `position` and assigns only local
variables, never an attribute of `position`, so the cell leaves the call
exactly as it entered. -/
def manage_exit_st (exit_rules : ExitRulesTable) (position : Position)
    (market_price now : ℚ) : ExitDecision × Position :=
  (manage_exit exit_rules position market_price now, position)

/-- The rule table of an empty `exit` section: every threshold takes its
coded default (4, 8, 0.4, 5, 60). -/
def defaultRules : ExitRulesTable :=
  ⟨none, none, none, none, none⟩

/-- The test fixture of `tests/test_exit_rules.py`: entry 100, 10 shares,
peak tracker at 100, no partial sale yet; `entry_time` is epoch 0, so `now`
in seconds is the elapsed holding time. -/
def tslaPos : Position :=
  { ticker := "TSLA", entry_price := 100, quantity := 10, entry_time := 0,
    event_id := "test123", order_id := "order123", stop_loss := 96,
    take_profit := 110, current_price := some 100, partial_sold := false }

/-- Helper: Python truncation agrees with the mathematical floor on
non-negative arguments. -/
theorem pyInt_eq_floor (q : ℚ) (h : 0 ≤ q) : pyInt q = ⌊q⌋ := by
  simp [pyInt, h]

/-- Helper: a positive truncation forces a non-negative argument, so it is
a positive floor. -/
theorem pyInt_pos_iff (q : ℚ) : 0 < pyInt q ↔ 0 < ⌊q⌋ ∧ 0 ≤ q := by
  unfold pyInt
  split_ifs with h
  · exact ⟨fun hp => ⟨hp, h⟩, fun hp => hp.1⟩
  · constructor
    · intro hp
      exfalso
      have h0 : (0 : ℚ) ≤ -q := le_of_lt (by linarith [not_le.mp h])
      have : (0 : ℤ) ≤ ⌊-q⌋ := Int.floor_nonneg.mpr h0
      omega
    · intro hp
      exact absurd hp.2 h

/-- C1: whenever `pnl_pct ≤ -hard_stop_pct`, `manage_exit` returns
FULL_SELL with reason HARD_STOP and sells the entire remaining quantity,
for every rule table, stored peak, `partial_sold` flag and holding time. -/
theorem hard_stop_priority (exit_rules : ExitRulesTable) (position : Position)
    (market_price now : ℚ) (hq : 0 ≤ position.quantity)
    (_he : 0 < position.entry_price)
    (h : pnl_pct position market_price ≤ -exit_rules.hardStopPct) :
    manage_exit exit_rules position market_price now =
      { action := .fullSell, reason := .hardStop, sell_qty := position.quantity,
        sell_price := market_price, new_peak := new_peak position market_price } := by
  unfold manage_exit
  rw [if_pos h, abs_of_nonneg hq]

/-- C1 witness: the fixture position at price 96 (exactly -4%) sells all
10 shares with reason HARD_STOP. -/
theorem hard_stop_priority_witness :
    0 ≤ tslaPos.quantity ∧ 0 < tslaPos.entry_price ∧
    pnl_pct tslaPos 96 ≤ -defaultRules.hardStopPct ∧
    manage_exit defaultRules tslaPos 96 1800 =
      { action := .fullSell, reason := .hardStop, sell_qty := tslaPos.quantity,
        sell_price := 96, new_peak := new_peak tslaPos 96 } :=
  ⟨by norm_num [tslaPos], by norm_num [tslaPos],
   by norm_num [pnl_pct, tslaPos, defaultRules, ExitRulesTable.hardStopPct],
   hard_stop_priority defaultRules tslaPos 96 1800 (by norm_num [tslaPos])
     (by norm_num [tslaPos])
     (by norm_num [pnl_pct, tslaPos, defaultRules, ExitRulesTable.hardStopPct])⟩

/-- C2: once `partial_sold` is true the decision is never PARTIAL_SELL and
its reason is never LVL1_PROFIT, however large `pnl_pct` is; the level-1
partial sale therefore fires at most once per position lifetime. -/
theorem partial_sale_at_most_once (exit_rules : ExitRulesTable)
    (position : Position) (market_price now : ℚ)
    (h : position.partial_sold = true) :
    (manage_exit exit_rules position market_price now).action ≠
        ExitAction.partialSell ∧
    (manage_exit exit_rules position market_price now).reason ≠
        ExitReason.lvl1Profit := by
  unfold manage_exit manage_exit_tail
  split_ifs with h1 h2 h3 h4 <;> simp_all

/-- C2 witness: the fixture with `partial_sold := true` at +10% neither
partial-sells nor reports LVL1_PROFIT. -/
theorem partial_sale_at_most_once_witness :
    ({ tslaPos with partial_sold := true } : Position).partial_sold = true ∧
    (manage_exit defaultRules { tslaPos with partial_sold := true } 110 0).action ≠
        ExitAction.partialSell ∧
    (manage_exit defaultRules { tslaPos with partial_sold := true } 110 0).reason ≠
        ExitReason.lvl1Profit :=
  ⟨rfl, partial_sale_at_most_once defaultRules
    { tslaPos with partial_sold := true } 110 0 rfl⟩

/-- C7: `RulesConfig` defines no `exit` attribute, so every production call
of `TradeManager.manage_exit` aborts at line 49 with an AttributeError,
whatever the loaded YAML holds and whatever position, price and time are
passed: the engine cannot obtain its rule table from `get_rules()`. -/
theorem manage_exit_run_attribute_error
    (sections : String → Option ExitRulesTable) (position : Position)
    (market_price now : ℚ) :
    "exit" ∉ rulesConfigAttrs ∧
    manage_exit_run sections position market_price now =
      Except.error "AttributeError: RulesConfig object has no attribute exit" := by
  constructor
  · decide
  · unfold manage_exit_run
    rw [if_neg (by decide)]

/-- C10: the engine mutates no input: the state-threaded form hands the
position back exactly as received, and equal inputs yield equal decisions. -/
theorem manage_exit_pure (exit_rules exit_rules2 : ExitRulesTable)
    (position position2 : Position) (market_price market_price2 now now2 : ℚ)
    (h1 : exit_rules = exit_rules2) (h2 : position = position2)
    (h3 : market_price = market_price2) (h4 : now = now2) :
    (manage_exit_st exit_rules position market_price now).2 = position ∧
    manage_exit exit_rules position market_price now =
      manage_exit exit_rules2 position2 market_price2 now2 := by
  subst h1 h2 h3 h4
  exact ⟨rfl, rfl⟩

/-- C10 witness: at the fixture input the position comes back unchanged and
the decision is reproducible. -/
theorem manage_exit_pure_witness :
    (manage_exit_st defaultRules tslaPos 102 1800).2 = tslaPos ∧
    manage_exit defaultRules tslaPos 102 1800 =
      manage_exit defaultRules tslaPos 102 1800 :=
  manage_exit_pure defaultRules defaultRules tslaPos tslaPos 102 102 1800 1800
    rfl rfl rfl rfl

/-- C3: when the level-1 branch conditions hold (no hard stop, `pnl_pct`
at or above the level-1 threshold, positive quantity, no prior partial
sale), a positive `floor(quantity * fraction)` is sold as PARTIAL_SELL,
and a zero floor skips the branch entirely: evaluation falls through to
the trailing-stop/time-limit/hold rules. -/
theorem lvl1_floor_quantity (exit_rules : ExitRulesTable) (position : Position)
    (market_price now : ℚ)
    (hhard : ¬ pnl_pct position market_price ≤ -exit_rules.hardStopPct)
    (hlvl : pnl_pct position market_price ≥ exit_rules.lvl1Pct)
    (hq : 0 < position.quantity) (hps : position.partial_sold = false) :
    (0 < ⌊(position.quantity : ℚ) * exit_rules.lvl1Part⌋ →
      manage_exit exit_rules position market_price now =
        { action := .partialSell, reason := .lvl1Profit,
          sell_qty := ⌊(position.quantity : ℚ) * exit_rules.lvl1Part⌋,
          sell_price := market_price,
          new_peak := new_peak position market_price }) ∧
    (⌊(position.quantity : ℚ) * exit_rules.lvl1Part⌋ = 0 →
      manage_exit exit_rules position market_price now =
        manage_exit_tail exit_rules position market_price now) := by
  constructor
  · intro hfl
    have hnn : (0 : ℚ) ≤ (position.quantity : ℚ) * exit_rules.lvl1Part := by
      by_contra hneg
      have : ⌊(position.quantity : ℚ) * exit_rules.lvl1Part⌋ ≤ 0 :=
        Int.floor_nonpos (le_of_lt (not_le.mp hneg))
      omega
    have hpy : pyInt ((position.quantity : ℚ) * exit_rules.lvl1Part) =
        ⌊(position.quantity : ℚ) * exit_rules.lvl1Part⌋ := pyInt_eq_floor _ hnn
    unfold manage_exit
    rw [if_neg hhard, if_pos ⟨hlvl, hq, hps, by rw [hpy]; exact hfl⟩, hpy]
  · intro hfl
    have hnn : (0 : ℚ) ≤ (position.quantity : ℚ) * exit_rules.lvl1Part := by
      have := Int.floor_le ((position.quantity : ℚ) * exit_rules.lvl1Part)
      rw [hfl] at this
      exact_mod_cast this
    have hpy : pyInt ((position.quantity : ℚ) * exit_rules.lvl1Part) = 0 := by
      rw [pyInt_eq_floor _ hnn, hfl]
    unfold manage_exit
    rw [if_neg hhard, if_neg]
    intro hc
    rw [hpy] at hc
    exact absurd hc.2.2.2 (by norm_num)

/-- C3 witness: 7 shares at +8% with the default fraction 0.4 sell exactly
2 shares (`floor(2.8)`), not 3. -/
theorem lvl1_floor_quantity_witness :
    ¬ pnl_pct { tslaPos with quantity := 7 } 108 ≤ -defaultRules.hardStopPct ∧
    pnl_pct { tslaPos with quantity := 7 } 108 ≥ defaultRules.lvl1Pct ∧
    0 < ({ tslaPos with quantity := 7 } : Position).quantity ∧
    0 < ⌊((({ tslaPos with quantity := 7 } : Position).quantity : ℚ)) * defaultRules.lvl1Part⌋ ∧
    ⌊((({ tslaPos with quantity := 7 } : Position).quantity : ℚ)) * defaultRules.lvl1Part⌋ = 2 ∧
    manage_exit defaultRules { tslaPos with quantity := 7 } 108 1800 =
      { action := .partialSell, reason := .lvl1Profit, sell_qty := 2,
        sell_price := 108, new_peak := new_peak { tslaPos with quantity := 7 } 108 } := by
  have h1 : ¬ pnl_pct { tslaPos with quantity := 7 } 108 ≤ -defaultRules.hardStopPct := by
    norm_num [pnl_pct, tslaPos, defaultRules, ExitRulesTable.hardStopPct]
  have h2 : pnl_pct { tslaPos with quantity := 7 } 108 ≥ defaultRules.lvl1Pct := by
    norm_num [pnl_pct, tslaPos, defaultRules, ExitRulesTable.lvl1Pct]
  have h3 : (0 : ℤ) < ({ tslaPos with quantity := 7 } : Position).quantity := by
    norm_num [tslaPos]
  have h4 : ⌊((({ tslaPos with quantity := 7 } : Position).quantity : ℚ)) * defaultRules.lvl1Part⌋ = 2 := by
    norm_num [tslaPos, defaultRules, ExitRulesTable.lvl1Part]
  have h5 := (lvl1_floor_quantity defaultRules { tslaPos with quantity := 7 }
    108 1800 h1 h2 h3 rfl).1 (by rw [h4]; norm_num)
  rw [h4] at h5
  exact ⟨h1, h2, h3, by rw [h4]; norm_num, h4, h5⟩

/-- C4: the trailing stop is inert unless the updated peak is strictly above
the entry price; and when it is, the retracement condition holds and no
higher-priority rule fired, the whole remaining quantity is sold as
FULL_SELL with reason TRAILING_STOP. -/
theorem trailing_stop_only_in_profit (exit_rules : ExitRulesTable)
    (position : Position) (market_price now : ℚ)
    (hq : 0 ≤ position.quantity) :
    (¬ new_peak position market_price > position.entry_price →
      (manage_exit exit_rules position market_price now).reason ≠
        ExitReason.trailingStop) ∧
    (new_peak position market_price > position.entry_price →
      market_price ≤ new_peak position market_price * (1 - exit_rules.trailPct / 100) →
      ¬ pnl_pct position market_price ≤ -exit_rules.hardStopPct →
      ¬ (pnl_pct position market_price ≥ exit_rules.lvl1Pct ∧
          position.quantity > 0 ∧ position.partial_sold = false ∧
          pyInt ((position.quantity : ℚ) * exit_rules.lvl1Part) > 0) →
      manage_exit exit_rules position market_price now =
        { action := .fullSell, reason := .trailingStop,
          sell_qty := position.quantity, sell_price := market_price,
          new_peak := new_peak position market_price }) := by
  constructor
  · intro hnp
    unfold manage_exit manage_exit_tail
    split_ifs with h1 h2 h3 h4 <;> simp_all
  · intro hp hm hh hl
    unfold manage_exit manage_exit_tail
    rw [if_neg hh, if_neg hl, if_pos ⟨hp, hm⟩, abs_of_nonneg hq]

/-- C4 witness: the fixture after a run to a stored peak of 200 with the
partial sale done, at price 190 (a 5% retracement), exits the whole 10
shares with reason TRAILING_STOP. -/
theorem trailing_stop_only_in_profit_witness :
    0 ≤ ({ tslaPos with current_price := some 200, partial_sold := true } : Position).quantity ∧
    new_peak { tslaPos with current_price := some 200, partial_sold := true } 190 >
      ({ tslaPos with current_price := some 200, partial_sold := true } : Position).entry_price ∧
    manage_exit defaultRules
        { tslaPos with current_price := some 200, partial_sold := true } 190 0 =
      { action := .fullSell, reason := .trailingStop, sell_qty := 10,
        sell_price := 190,
        new_peak := new_peak { tslaPos with current_price := some 200, partial_sold := true } 190 } := by
  have hq : (0 : ℤ) ≤ ({ tslaPos with current_price := some 200, partial_sold := true } : Position).quantity := by
    norm_num [tslaPos]
  have hp : new_peak { tslaPos with current_price := some 200, partial_sold := true } 190 >
      ({ tslaPos with current_price := some 200, partial_sold := true } : Position).entry_price := by
    norm_num [new_peak, current_peak, tslaPos]
  have h := (trailing_stop_only_in_profit defaultRules
      { tslaPos with current_price := some 200, partial_sold := true } 190 0 hq).2
    hp
    (by norm_num [new_peak, current_peak, tslaPos, defaultRules, ExitRulesTable.trailPct])
    (by norm_num [pnl_pct, tslaPos, defaultRules, ExitRulesTable.hardStopPct])
    (by norm_num [tslaPos])
  exact ⟨hq, hp, by rw [h]; norm_num [tslaPos]⟩

/-- C5: every threshold comparison is inclusive: `pnl_pct` exactly at
`-hard_stop_pct` fires HARD_STOP, exactly at `take_profit_lvl1_pct` fires
LVL1_PROFIT on a fresh position (one whose partial quantity is positive),
and elapsed time exactly at `hold_minutes` fires TIME_LIMIT (when no
higher-priority rule intervenes). -/
theorem boundary_inclusive :
    (∀ (exit_rules : ExitRulesTable) (position : Position) (market_price now : ℚ),
      pnl_pct position market_price = -exit_rules.hardStopPct →
      (manage_exit exit_rules position market_price now).action = ExitAction.fullSell ∧
      (manage_exit exit_rules position market_price now).reason = ExitReason.hardStop) ∧
    (∀ (exit_rules : ExitRulesTable) (position : Position) (market_price now : ℚ),
      pnl_pct position market_price = exit_rules.lvl1Pct →
      -exit_rules.hardStopPct < exit_rules.lvl1Pct →
      position.quantity > 0 → position.partial_sold = false →
      0 < pyInt ((position.quantity : ℚ) * exit_rules.lvl1Part) →
      (manage_exit exit_rules position market_price now).action = ExitAction.partialSell ∧
      (manage_exit exit_rules position market_price now).reason = ExitReason.lvl1Profit) ∧
    (∀ (exit_rules : ExitRulesTable) (position : Position) (market_price now : ℚ),
      hold_time position now = exit_rules.holdMinutes →
      ¬ pnl_pct position market_price ≤ -exit_rules.hardStopPct →
      ¬ (pnl_pct position market_price ≥ exit_rules.lvl1Pct ∧
          position.quantity > 0 ∧ position.partial_sold = false ∧
          pyInt ((position.quantity : ℚ) * exit_rules.lvl1Part) > 0) →
      ¬ (new_peak position market_price > position.entry_price ∧
          market_price ≤ new_peak position market_price * (1 - exit_rules.trailPct / 100)) →
      (manage_exit exit_rules position market_price now).action = ExitAction.fullSell ∧
      (manage_exit exit_rules position market_price now).reason = ExitReason.timeLimit) := by
  refine ⟨?_, ?_, ?_⟩
  · intro exit_rules position market_price now h
    unfold manage_exit
    rw [if_pos (le_of_eq h)]
    exact ⟨rfl, rfl⟩
  · intro exit_rules position market_price now h hgt hqty hps hpy
    unfold manage_exit
    rw [if_neg (not_le.mpr (h ▸ hgt)), if_pos ⟨ge_of_eq h, hqty, hps, hpy⟩]
    exact ⟨rfl, rfl⟩
  · intro exit_rules position market_price now h hh hl htr
    unfold manage_exit manage_exit_tail
    rw [if_neg hh, if_neg hl, if_neg htr, if_pos (ge_of_eq h)]
    exact ⟨rfl, rfl⟩

/-- C5 witness: on the fixture, price 96 is exactly -4% and fires HARD_STOP,
price 108 is exactly +8% and fires LVL1_PROFIT, and 3600 seconds is exactly
60 minutes and fires TIME_LIMIT at the neutral price 102. -/
theorem boundary_inclusive_witness :
    (manage_exit defaultRules tslaPos 96 0).reason = ExitReason.hardStop ∧
    (manage_exit defaultRules tslaPos 108 0).reason = ExitReason.lvl1Profit ∧
    (manage_exit defaultRules tslaPos 102 3600).reason = ExitReason.timeLimit := by
  refine ⟨(boundary_inclusive.1 defaultRules tslaPos 96 0 ?_).2,
    (boundary_inclusive.2.1 defaultRules tslaPos 108 0 ?_ ?_ ?_ ?_ ?_).2,
    (boundary_inclusive.2.2 defaultRules tslaPos 102 3600 ?_ ?_ ?_ ?_).2⟩ <;>
    norm_num [pnl_pct, hold_time, new_peak, current_peak, pyInt, tslaPos,
      defaultRules, ExitRulesTable.hardStopPct, ExitRulesTable.lvl1Pct,
      ExitRulesTable.lvl1Part, ExitRulesTable.trailPct, ExitRulesTable.holdMinutes]

/-- Helper: whatever branch fires, the decision's `new_peak` field is
`max(current_peak, market_price)`. -/
theorem manage_exit_new_peak_eq (exit_rules : ExitRulesTable)
    (position : Position) (market_price now : ℚ) :
    (manage_exit exit_rules position market_price now).new_peak =
      new_peak position market_price := by
  unfold manage_exit manage_exit_tail
  split_ifs <;> rfl

/-- C6: with a positive stored peak `p`, the returned `updated_peak` is
`max p market_price`, hence at least the stored peak and at least the
current price; and when the caller writes it back onto the position, the
peak of the next call never decreases, whatever the next price is. -/
theorem peak_monotone (exit_rules : ExitRulesTable) (position : Position)
    (market_price next_price now p : ℚ)
    (hp : position.current_price = some p) (hp0 : 0 < p) :
    (manage_exit exit_rules position market_price now).new_peak =
      max p market_price ∧
    p ≤ (manage_exit exit_rules position market_price now).new_peak ∧
    market_price ≤ (manage_exit exit_rules position market_price now).new_peak ∧
    (manage_exit exit_rules position market_price now).new_peak ≤
      (manage_exit exit_rules
        { position with current_price := some (manage_exit exit_rules position market_price now).new_peak }
        next_price now).new_peak := by
  have h1 : (manage_exit exit_rules position market_price now).new_peak =
      max p market_price := by
    rw [manage_exit_new_peak_eq]
    simp [new_peak, current_peak, hp, ne_of_gt hp0]
  refine ⟨h1, h1 ▸ le_max_left p market_price, h1 ▸ le_max_right p market_price, ?_⟩
  have hpos : (0 : ℚ) < (manage_exit exit_rules position market_price now).new_peak := by
    rw [h1]
    exact lt_of_lt_of_le hp0 (le_max_left _ _)
  rw [manage_exit_new_peak_eq exit_rules _ next_price now]
  have h2 : new_peak
      { position with current_price := some (manage_exit exit_rules position market_price now).new_peak }
      next_price =
      max (manage_exit exit_rules position market_price now).new_peak next_price := by
    simp [new_peak, current_peak, ne_of_gt hpos]
  rw [h2]
  exact le_max_left _ _

/-- C6 witness: the fixture (stored peak 100) at price 120, then a
write-back and a drop to 115: the peak is 120 and stays 120. -/
theorem peak_monotone_witness :
    tslaPos.current_price = some 100 ∧ (0 : ℚ) < 100 ∧
    ((manage_exit defaultRules tslaPos 120 0).new_peak = max 100 120 ∧
      (100 : ℚ) ≤ (manage_exit defaultRules tslaPos 120 0).new_peak ∧
      (120 : ℚ) ≤ (manage_exit defaultRules tslaPos 120 0).new_peak ∧
      (manage_exit defaultRules tslaPos 120 0).new_peak ≤
        (manage_exit defaultRules
          { tslaPos with current_price := some (manage_exit defaultRules tslaPos 120 0).new_peak }
          115 0).new_peak) :=
  ⟨rfl, by norm_num,
   peak_monotone defaultRules tslaPos 120 115 0 100 rfl (by norm_num)⟩

/-- Helper: the informational HOLD reason string always begins with
"In position" and is never the constant "NONE". -/
theorem inPosition_text_ne_none (p h : ℚ) :
    (ExitReason.inPosition p h).text ≠ "NONE" := by
  intro hEq
  have hlen := congrArg String.length hEq
  simp only [ExitReason.text, String.length_append] at hlen
  have l1 : ("In position: +").length = 14 := rfl
  have l2 : ("%, ").length = 3 := rfl
  have l3 : ("m").length = 1 := rfl
  have l4 : ("NONE").length = 4 := rfl
  omega

/-- C8 counterexample: on the fixture at price 102 after 30 minutes no exit
rule fires; the decision is HOLD with sell_qty 0 and sell_price 0, but its
reason string is "In position: +2.0%, 30m" — not "NONE" as the claim
states. -/
theorem hold_reason_not_none_cex :
    (manage_exit defaultRules tslaPos 102 1800).action = ExitAction.hold ∧
    (manage_exit defaultRules tslaPos 102 1800).sell_qty = 0 ∧
    (manage_exit defaultRules tslaPos 102 1800).sell_price = 0 ∧
    (manage_exit defaultRules tslaPos 102 1800).reason.text ≠ "NONE" ∧
    (manage_exit defaultRules tslaPos 102 1800).reason.text =
      "In position: +2.0%, 30m" := by
  have hres : manage_exit defaultRules tslaPos 102 1800 =
      { action := .hold, reason := .inPosition 2 30, sell_qty := 0,
        sell_price := 0, new_peak := 102 } := by
    norm_num [manage_exit, manage_exit_tail, pnl_pct, hold_time, new_peak,
      current_peak, pyInt, tslaPos, defaultRules, ExitRulesTable.hardStopPct,
      ExitRulesTable.lvl1Pct, ExitRulesTable.lvl1Part, ExitRulesTable.trailPct,
      ExitRulesTable.holdMinutes]
  rw [hres]
  refine ⟨rfl, rfl, rfl, inPosition_text_ne_none 2 30, ?_⟩
  have h20 : roundHalfEven ((2 : ℚ) * 10) = 20 := by norm_num [roundHalfEven]
  have h30 : roundHalfEven (30 : ℚ) = 30 := by norm_num [roundHalfEven]
  simp only [ExitReason.text, fmtFix1, fmtFix0, h20, h30]
  norm_num
  rfl

/-- C8 (amended): when no exit rule fires the decision is HOLD with
sell_qty 0 and sell_price 0 (the no-sale sentinel), and its reason is the
informational "In position" string built from the current P&L and holding
time — never the constant "NONE". -/
theorem hold_fallback (exit_rules : ExitRulesTable) (position : Position)
    (market_price now : ℚ)
    (hh : ¬ pnl_pct position market_price ≤ -exit_rules.hardStopPct)
    (hl : ¬ (pnl_pct position market_price ≥ exit_rules.lvl1Pct ∧
        position.quantity > 0 ∧ position.partial_sold = false ∧
        pyInt ((position.quantity : ℚ) * exit_rules.lvl1Part) > 0))
    (ht : ¬ (new_peak position market_price > position.entry_price ∧
        market_price ≤ new_peak position market_price * (1 - exit_rules.trailPct / 100)))
    (htime : ¬ hold_time position now ≥ exit_rules.holdMinutes) :
    manage_exit exit_rules position market_price now =
      { action := .hold,
        reason := .inPosition (pnl_pct position market_price) (hold_time position now),
        sell_qty := 0, sell_price := 0,
        new_peak := new_peak position market_price } ∧
    (manage_exit exit_rules position market_price now).reason.text ≠ "NONE" := by
  have hres : manage_exit exit_rules position market_price now =
      { action := .hold,
        reason := .inPosition (pnl_pct position market_price) (hold_time position now),
        sell_qty := 0, sell_price := 0,
        new_peak := new_peak position market_price } := by
    unfold manage_exit manage_exit_tail
    rw [if_neg hh, if_neg hl, if_neg ht, if_neg htime]
  exact ⟨hres, by rw [hres]; exact inPosition_text_ne_none _ _⟩

/-- C8 witness: the fixture at price 102, 30 minutes in, falls through to
the HOLD branch. -/
theorem hold_fallback_witness :
    manage_exit defaultRules tslaPos 102 600 =
      { action := .hold,
        reason := .inPosition (pnl_pct tslaPos 102) (hold_time tslaPos 600),
        sell_qty := 0, sell_price := 0, new_peak := new_peak tslaPos 102 } ∧
    (manage_exit defaultRules tslaPos 102 600).reason.text ≠ "NONE" :=
  hold_fallback defaultRules tslaPos 102 600
    (by norm_num [pnl_pct, tslaPos, defaultRules, ExitRulesTable.hardStopPct])
    (by norm_num [pnl_pct, tslaPos, defaultRules, ExitRulesTable.lvl1Pct])
    (by norm_num [new_peak, current_peak, tslaPos, defaultRules,
      ExitRulesTable.trailPct])
    (by norm_num [hold_time, tslaPos, defaultRules, ExitRulesTable.holdMinutes])

/-- C9 counterexample: quantity 0 is one of the malformed inputs the claim
says must produce an explicit error/invalid-input result; instead
`manage_exit` silently returns the ordinary HOLD decision. -/
theorem no_fail_fast_cex :
    ({ tslaPos with quantity := 0 } : Position).quantity = 0 ∧
    manage_exit defaultRules { tslaPos with quantity := 0 } 102 1800 =
      { action := .hold, reason := .inPosition 2 30, sell_qty := 0,
        sell_price := 0, new_peak := 102 } := by
  constructor
  · rfl
  · norm_num [manage_exit, manage_exit_tail, pnl_pct, hold_time, new_peak,
      current_peak, pyInt, tslaPos, defaultRules, ExitRulesTable.hardStopPct,
      ExitRulesTable.lvl1Pct, ExitRulesTable.lvl1Part, ExitRulesTable.trailPct,
      ExitRulesTable.holdMinutes]

/-- C9 (amended): `manage_exit` performs no input validation.  A position
whose quantity is already zero is processed silently through the normal
rule chain: the decision sells zero shares and is never PARTIAL_SELL, and
no error or invalid-input result exists anywhere in the function's range. -/
theorem zero_quantity_no_validation (exit_rules : ExitRulesTable)
    (position : Position) (market_price now : ℚ)
    (hq : position.quantity = 0) :
    (manage_exit exit_rules position market_price now).sell_qty = 0 ∧
    (manage_exit exit_rules position market_price now).action ≠
      ExitAction.partialSell := by
  unfold manage_exit manage_exit_tail
  split_ifs with h1 h2 h3 h4 <;> simp_all

/-- C9 witness: the zero-quantity fixture flows through undisturbed. -/
theorem zero_quantity_no_validation_witness :
    ({ tslaPos with quantity := 0 } : Position).quantity = 0 ∧
    (manage_exit defaultRules { tslaPos with quantity := 0 } 102 1800).sell_qty = 0 ∧
    (manage_exit defaultRules { tslaPos with quantity := 0 } 102 1800).action ≠
      ExitAction.partialSell :=
  ⟨rfl, zero_quantity_no_validation defaultRules
    { tslaPos with quantity := 0 } 102 1800 rfl⟩
